import Mathlib

/-!
Verification of the climate-dashboard projection logic
(`src/components/ClimateAIDashboard.tsx`).

The component's computational core is pure: a closed `Region` enumeration,
a fixed table of regional multipliers, a fixed 7-point historical series,
a fixed 7-point CO2 series, a per-region historical transformer
(`getRegionalHistoricalData`) and a metric projector (`calculateMetrics`).

Numbers are embedded as rationals.  JavaScript's
`Number.prototype.toFixed(f)` is modelled per the ECMAScript algorithm:
the sign is stripped first, the magnitude is rounded to the nearest
multiple of `10^(-f)` with ties going to the larger value (half-up on the
magnitude), and the digits are rendered after the sign.  All values the
claims touch are far from representation-induced tie points, so the
rational model agrees with the IEEE-double behaviour on them.
-/

namespace Climate

/-- The closed list of region names (`regions` in the source, lines 28-36). -/
inductive Region where
  | Global
  | NorthAmerica
  | Europe
  | Asia
  | Africa
  | SouthAmerica
  | Oceania
deriving DecidableEq, BEq

/-- The `regions` array, in source order. -/
def regions : List Region :=
  [Region.Global, Region.NorthAmerica, Region.Europe, Region.Asia,
   Region.Africa, Region.SouthAmerica, Region.Oceania]

/-- The record type of the regional multipliers (source lines 41-45). -/
structure RegionalFactors where
  temperature : ℚ
  precipitation : ℚ
  seaLevel : ℚ
  extremeEvents : ℚ
deriving DecidableEq

/-- The object literal `regionalFactors` (source lines 46-54) as an
association list, one entry per key in source order. -/
def regionalFactorsList : List (Region × RegionalFactors) :=
  [(Region.Global, ⟨1, 1, 1, 1⟩),
   (Region.NorthAmerica, ⟨1.2, 1.3, 0.8, 1.1⟩),
   (Region.Europe, ⟨1.1, 1.2, 0.9, 1.2⟩),
   (Region.Asia, ⟨1.3, 1.4, 1.2, 1.3⟩),
   (Region.Africa, ⟨1.4, 0.7, 1.1, 1.4⟩),
   (Region.SouthAmerica, ⟨1.1, 1.5, 1.0, 1.2⟩),
   (Region.Oceania, ⟨1.2, 0.9, 1.3, 1.1⟩)]

/-- Key lookup into `regionalFactors` (`regionalFactors[region]`).  The TS
type `Record<Region, ...>` makes the lookup total; the match mirrors the
seven keys of the object literal. -/
def regionalFactors : Region → RegionalFactors
  | Region.Global => ⟨1, 1, 1, 1⟩
  | Region.NorthAmerica => ⟨1.2, 1.3, 0.8, 1.1⟩
  | Region.Europe => ⟨1.1, 1.2, 0.9, 1.2⟩
  | Region.Asia => ⟨1.3, 1.4, 1.2, 1.3⟩
  | Region.Africa => ⟨1.4, 0.7, 1.1, 1.4⟩
  | Region.SouthAmerica => ⟨1.1, 1.5, 1.0, 1.2⟩
  | Region.Oceania => ⟨1.2, 0.9, 1.3, 1.1⟩

/-- A point of the historical temperature series (source lines 57-65). -/
structure HistoricalPoint where
  year : ℤ
  temperature : ℚ
deriving DecidableEq

/-- `baseHistoricalData` (source lines 57-65). -/
def baseHistoricalData : List HistoricalPoint :=
  [⟨1900, -0.2⟩, ⟨1950, 0⟩, ⟨2000, 0.5⟩, ⟨2023, 1.1⟩,
   ⟨2030, 1.3⟩, ⟨2040, 1.4⟩, ⟨2050, 1.6⟩]

/-- A point of the CO2 series (source lines 67-75). -/
structure CO2Point where
  year : ℤ
  level : ℚ
deriving DecidableEq

/-- `co2Data` (source lines 67-75). -/
def co2Data : List CO2Point :=
  [⟨1900, 295⟩, ⟨1950, 310⟩, ⟨2000, 370⟩, ⟨2023, 420⟩,
   ⟨2030, 450⟩, ⟨2040, 490⟩, ⟨2050, 530⟩]

/-- Magnitude part of ECMAScript `toFixed`: the integer `n` with
`n / 10^pow` nearest the magnitude of `q`, ties to the larger `n`
(half-up).  The sign is stripped first, as the ECMAScript algorithm does. -/
def jsFixedMag (pow : ℕ) (q : ℚ) : ℤ :=
  Int.floor ((if q < 0 then -q else q) * 10 ^ pow + 1 / 2)

/-- Signed rounded value of `q.toFixed(pow)` scaled by `10^pow`:
ECMAScript strips the sign first, so ties round away from zero. -/
def jsRound (pow : ℕ) (q : ℚ) : ℤ :=
  if q < 0 then -jsFixedMag pow q else jsFixedMag pow q

/-- `q.toFixed(1)` as a string: a `-` sign when `q < 0`, the integer part
of the rounded magnitude, a decimal point, and exactly one digit. -/
def toFixed1 (q : ℚ) : String :=
  (if q < 0 then "-" else "")
    ++ toString (jsFixedMag 1 q / 10) ++ "." ++ toString (jsFixedMag 1 q % 10)

/-- `Number(q.toFixed(2))`: round to 2 decimal digits, back as a number. -/
def round2 (q : ℚ) : ℚ :=
  (jsRound 2 q : ℚ) / 100

/-- `getRegionalHistoricalData` (source lines 78-84): scale each point's
temperature by the region's temperature factor and round to 2 decimals. -/
def getRegionalHistoricalData (region : Region) : List HistoricalPoint :=
  let factor := (regionalFactors region).temperature
  baseHistoricalData.map (fun data =>
    { data with temperature := round2 (data.temperature * factor) })

/-- The record returned by `calculateMetrics`: four formatted strings. -/
@[ext]
structure ProjectedMetrics where
  temperature : String
  precipitation : String
  seaLevel : String
  extremeEvents : String
deriving DecidableEq

/-- `calculateMetrics` (source lines 86-104). -/
def calculateMetrics (year : ℤ) (region : Region) : ProjectedMetrics :=
  let baseYear : ℚ := 2023
  let yearDiff : ℚ := (year : ℚ) - baseYear
  let factors := regionalFactors region
  let baseTempIncrease : ℚ := 1.1 + (yearDiff * (1.6 - 1.1) / (2050 - 2023))
  let basePrecipChange : ℚ := yearDiff * 5.3 / (2050 - 2023)
  let baseSeaLevelRise : ℚ := yearDiff * 26.3 / (2050 - 2023)
  let baseExtremeEvents : ℚ := yearDiff * 32 / (2050 - 2023)
  { temperature := toFixed1 (baseTempIncrease * factors.temperature),
    precipitation := toFixed1 (basePrecipChange * factors.precipitation),
    seaLevel := toFixed1 (baseSeaLevelRise * factors.seaLevel),
    extremeEvents := toFixed1 (baseExtremeEvents * factors.extremeEvents) }

/-- The unrounded regional temperature projection: the argument
`calculateMetrics` hands to `toFixed1` for its `temperature` field. -/
def tempProjection (year : ℤ) (r : Region) : ℚ :=
  (1.1 + ((year : ℚ) - 2023) * (1.6 - 1.1) / (2050 - 2023))
    * (regionalFactors r).temperature

/-- Numeric value denoted by the `temperature` string of
`calculateMetrics year r` (the rounded tenths over 10). -/
def temperatureValue (year : ℤ) (r : Region) : ℚ :=
  (jsRound 1 (tempProjection year r) : ℚ) / 10

/-- The interactive state held by the dashboard component. -/
structure DashboardState where
  selectedRegion : Region
  selectedYear : ℤ

/-- The series handed to the CO2 area chart by the render function: the
constant `co2Data`, independent of the selected state (source line 262). -/
def chartCO2Data (_state : DashboardState) : List CO2Point :=
  co2Data

/-! ### Evaluation and monotonicity lemmas for the rounding model -/

/-- Evaluate `jsFixedMag` on a nonnegative argument from floor bounds. -/
lemma jsFixedMag_eq_of_nonneg (pow : ℕ) (q : ℚ) (n : ℤ) (hq : ¬ q < 0)
    (hl : (n : ℚ) ≤ q * 10 ^ pow + 1 / 2) (hu : q * 10 ^ pow + 1 / 2 < n + 1) :
    jsFixedMag pow q = n := by
  unfold jsFixedMag
  rw [if_neg hq]
  exact Int.floor_eq_iff.mpr ⟨hl, hu⟩

/-- Evaluate `jsFixedMag` on a negative argument from floor bounds. -/
lemma jsFixedMag_eq_of_neg (pow : ℕ) (q : ℚ) (n : ℤ) (hq : q < 0)
    (hl : (n : ℚ) ≤ -q * 10 ^ pow + 1 / 2) (hu : -q * 10 ^ pow + 1 / 2 < n + 1) :
    jsFixedMag pow q = n := by
  unfold jsFixedMag
  rw [if_pos hq]
  exact Int.floor_eq_iff.mpr ⟨hl, hu⟩

/-- Evaluate `toFixed1` on a nonnegative argument. -/
lemma toFixed1_eq (q : ℚ) (n : ℤ) (hq : ¬ q < 0)
    (hl : (n : ℚ) ≤ q * 10 + 1 / 2) (hu : q * 10 + 1 / 2 < n + 1)
    (s : String) (hs : toString (n / 10) ++ "." ++ toString (n % 10) = s) :
    toFixed1 q = s := by
  have hm : jsFixedMag 1 q = n := by
    refine jsFixedMag_eq_of_nonneg 1 q n hq ?_ ?_ <;> rw [pow_one] <;> assumption
  unfold toFixed1
  rw [if_neg hq, hm]
  exact hs

/-- Evaluate `toFixed1` on a negative argument. -/
lemma toFixed1_eq_neg (q : ℚ) (n : ℤ) (hq : q < 0)
    (hl : (n : ℚ) ≤ -q * 10 + 1 / 2) (hu : -q * 10 + 1 / 2 < n + 1)
    (s : String) (hs : "-" ++ toString (n / 10) ++ "." ++ toString (n % 10) = s) :
    toFixed1 q = s := by
  have hm : jsFixedMag 1 q = n := by
    refine jsFixedMag_eq_of_neg 1 q n hq ?_ ?_ <;> rw [pow_one] <;> assumption
  unfold toFixed1
  rw [if_pos hq, hm]
  exact hs

/-- Evaluate `round2` on a nonnegative argument. -/
lemma round2_eq (q : ℚ) (n : ℤ) (hq : ¬ q < 0)
    (hl : (n : ℚ) ≤ q * 100 + 1 / 2) (hu : q * 100 + 1 / 2 < n + 1)
    (r : ℚ) (hr : (n : ℚ) / 100 = r) : round2 q = r := by
  have hm : jsFixedMag 2 q = n := by
    refine jsFixedMag_eq_of_nonneg 2 q n hq ?_ ?_ <;>
      rw [show ((10 : ℚ) ^ (2 : ℕ)) = 100 by norm_num] <;> assumption
  unfold round2 jsRound
  rw [if_neg hq, hm]
  exact hr

/-- Evaluate `round2` on a negative argument. -/
lemma round2_eq_neg (q : ℚ) (n : ℤ) (hq : q < 0)
    (hl : (n : ℚ) ≤ -q * 100 + 1 / 2) (hu : -q * 100 + 1 / 2 < n + 1)
    (r : ℚ) (hr : ((-n : ℤ) : ℚ) / 100 = r) : round2 q = r := by
  have hm : jsFixedMag 2 q = n := by
    refine jsFixedMag_eq_of_neg 2 q n hq ?_ ?_ <;>
      rw [show ((10 : ℚ) ^ (2 : ℕ)) = 100 by norm_num] <;> assumption
  unfold round2 jsRound
  rw [if_pos hq, hm]
  exact hr

/-- The scaled magnitude is never negative. -/
lemma jsFixedMag_nonneg (pow : ℕ) (q : ℚ) : 0 ≤ jsFixedMag pow q := by
  unfold jsFixedMag
  apply Int.floor_nonneg.mpr
  have h10 : (0 : ℚ) ≤ 10 ^ pow := by positivity
  rcases lt_or_le q 0 with h | h
  · rw [if_pos h]
    have : (0 : ℚ) ≤ -q := by linarith
    nlinarith
  · rw [if_neg (not_lt.mpr h)]
    nlinarith

/-- The signed rounding `jsRound` is monotone. -/
lemma jsRound_mono (pow : ℕ) {a b : ℚ} (h : a ≤ b) :
    jsRound pow a ≤ jsRound pow b := by
  have h10 : (0 : ℚ) ≤ 10 ^ pow := by positivity
  unfold jsRound
  rcases lt_or_le a 0 with ha | ha
  · rcases lt_or_le b 0 with hb | hb
    · rw [if_pos ha, if_pos hb]
      apply neg_le_neg
      unfold jsFixedMag
      rw [if_pos ha, if_pos hb]
      apply Int.floor_mono
      have := mul_le_mul_of_nonneg_right (neg_le_neg h) h10
      linarith
    · rw [if_pos ha, if_neg (not_lt.mpr hb)]
      have h1 := jsFixedMag_nonneg pow a
      have h2 := jsFixedMag_nonneg pow b
      omega
  · have hb : ¬ b < 0 := not_lt.mpr (ha.trans h)
    rw [if_neg (not_lt.mpr ha), if_neg hb]
    unfold jsFixedMag
    rw [if_neg (not_lt.mpr ha), if_neg hb]
    apply Int.floor_mono
    have := mul_le_mul_of_nonneg_right h h10
    linarith

/-- Rounding to two decimals is monotone. -/
lemma round2_mono {a b : ℚ} (h : a ≤ b) : round2 a ≤ round2 b := by
  unfold round2
  have h1 := jsRound_mono 2 h
  have h2 : ((jsRound 2 a : ℤ) : ℚ) ≤ ((jsRound 2 b : ℤ) : ℚ) := by exact_mod_cast h1
  linarith

/-- Every region's temperature factor is positive. -/
lemma regionalFactors_temperature_pos (r : Region) :
    0 < (regionalFactors r).temperature := by
  cases r <;> norm_num [regionalFactors]

/-- The unrounded temperature projection is monotone in the year. -/
lemma tempProjection_mono (r : Region) {y1 y2 : ℤ} (h : y1 ≤ y2) :
    tempProjection y1 r ≤ tempProjection y2 r := by
  have hf := (regionalFactors_temperature_pos r).le
  have hy : (y1 : ℚ) ≤ (y2 : ℚ) := by exact_mod_cast h
  unfold tempProjection
  have h1 : ((y1 : ℚ) - 2023) * (1.6 - 1.1) ≤ ((y2 : ℚ) - 2023) * (1.6 - 1.1) :=
    mul_le_mul_of_nonneg_right (by linarith) (by norm_num)
  have h2 : ((y1 : ℚ) - 2023) * (1.6 - 1.1) / (2050 - 2023)
      ≤ ((y2 : ℚ) - 2023) * (1.6 - 1.1) / (2050 - 2023) :=
    (div_le_div_iff_of_pos_right (by norm_num)).mpr h1
  exact mul_le_mul_of_nonneg_right (by linarith) hf

/-- From the 2023 baseline on, the unrounded projection is nonnegative. -/
lemma tempProjection_nonneg (r : Region) {y : ℤ} (h : 2023 ≤ y) :
    0 ≤ tempProjection y r := by
  have hf := (regionalFactors_temperature_pos r).le
  have hy : (2023 : ℚ) ≤ (y : ℚ) := by exact_mod_cast h
  unfold tempProjection
  apply mul_nonneg _ hf
  have h1 : (0 : ℚ) ≤ ((y : ℚ) - 2023) * (1.6 - 1.1) :=
    mul_nonneg (by linarith) (by norm_num)
  have h2 : (0 : ℚ) ≤ ((y : ℚ) - 2023) * (1.6 - 1.1) / (2050 - 2023) :=
    div_nonneg h1 (by norm_num)
  linarith

/-- `toString` of an integer in `[0, 10)` is a single digit character. -/
lemma intToString_digit (k : ℤ) (h0 : 0 ≤ k) (h9 : k < 10) :
    ∃ c : Char, c.isDigit = true ∧ toString k = Char.toString c := by
  interval_cases k
  exacts [⟨'0', by decide, by decide⟩, ⟨'1', by decide, by decide⟩,
    ⟨'2', by decide, by decide⟩, ⟨'3', by decide, by decide⟩,
    ⟨'4', by decide, by decide⟩, ⟨'5', by decide, by decide⟩,
    ⟨'6', by decide, by decide⟩, ⟨'7', by decide, by decide⟩,
    ⟨'8', by decide, by decide⟩, ⟨'9', by decide, by decide⟩]

/-- Two projections differing in their temperature string are different. -/
lemma ne_of_temperature_ne {y1 y2 : ℤ} {r : Region} {s1 s2 : String}
    (h1 : (calculateMetrics y1 r).temperature = s1)
    (h2 : (calculateMetrics y2 r).temperature = s2) (hs : s1 ≠ s2) :
    calculateMetrics y1 r ≠ calculateMetrics y2 r := by
  intro h
  rw [h] at h1
  exact hs (h1.symm.trans h2)

/-! ### The claims -/

/-- Claim C1: for every integer year and every Region, `calculateMetrics`
computes `yearDiff = year - 2023`, the four base values
`1.1 + yearDiff * (1.6 - 1.1) / (2050 - 2023)`,
`yearDiff * 5.3 / (2050 - 2023)`, `yearDiff * 26.3 / (2050 - 2023)` and
`yearDiff * 32 / (2050 - 2023)`, multiplies each by the matching regional
factor, and formats each result with exactly one digit after the decimal
point (second conjunct: every `toFixed1` output ends in a decimal point
followed by exactly one digit). -/
theorem calculateMetrics_formula_spec :
    (∀ (year : ℤ) (r : Region),
      calculateMetrics year r =
        { temperature := toFixed1 ((1.1 + ((year : ℚ) - 2023) * (1.6 - 1.1) / (2050 - 2023)) * (regionalFactors r).temperature),
          precipitation := toFixed1 (((year : ℚ) - 2023) * 5.3 / (2050 - 2023) * (regionalFactors r).precipitation),
          seaLevel := toFixed1 (((year : ℚ) - 2023) * 26.3 / (2050 - 2023) * (regionalFactors r).seaLevel),
          extremeEvents := toFixed1 (((year : ℚ) - 2023) * 32 / (2050 - 2023) * (regionalFactors r).extremeEvents) })
    ∧ (∀ q : ℚ, ∃ (s : String) (c : Char), c.isDigit = true
        ∧ toFixed1 q = s ++ "." ++ Char.toString c) := by
  refine ⟨fun year r => rfl, fun q => ?_⟩
  obtain ⟨c, hc, hcs⟩ := intToString_digit (jsFixedMag 1 q % 10)
    (Int.emod_nonneg _ (by norm_num)) (Int.emod_lt_of_pos _ (by norm_num))
  refine ⟨(if q < 0 then "-" else "") ++ toString (jsFixedMag 1 q / 10), c, hc, ?_⟩
  unfold toFixed1
  rw [hcs]

/-- Claim C2: `getRegionalHistoricalData` returns the fixed 7-point base
sequence with each temperature multiplied by the region's temperature
factor and rounded to 2 decimal digits; for Asia (factor 1.3) year 2023's
1.1 becomes 1.43; years, order and length are unchanged. -/
theorem getRegionalHistoricalData_spec :
    (∀ r : Region, getRegionalHistoricalData r = baseHistoricalData.map
      (fun d => { d with temperature := round2 (d.temperature * (regionalFactors r).temperature) }))
    ∧ (getRegionalHistoricalData Region.Asia).map (fun d => d.temperature)
        = [-0.26, 0, 0.65, 1.43, 1.69, 1.82, 2.08]
    ∧ (∀ r : Region, (getRegionalHistoricalData r).map (fun d => d.year)
          = baseHistoricalData.map (fun d => d.year)
        ∧ (getRegionalHistoricalData r).length = baseHistoricalData.length) := by
  refine ⟨fun r => rfl, ?_, fun r => ?_⟩
  · have e1 : round2 ((-0.2 : ℚ) * 1.3) = -0.26 :=
      round2_eq_neg _ 26 (by norm_num) (by norm_num) (by norm_num) _ (by norm_num)
    have e2 : round2 ((0 : ℚ) * 1.3) = 0 :=
      round2_eq _ 0 (by norm_num) (by norm_num) (by norm_num) _ (by norm_num)
    have e3 : round2 ((0.5 : ℚ) * 1.3) = 0.65 :=
      round2_eq _ 65 (by norm_num) (by norm_num) (by norm_num) _ (by norm_num)
    have e4 : round2 ((1.1 : ℚ) * 1.3) = 1.43 :=
      round2_eq _ 143 (by norm_num) (by norm_num) (by norm_num) _ (by norm_num)
    have e5 : round2 ((1.3 : ℚ) * 1.3) = 1.69 :=
      round2_eq _ 169 (by norm_num) (by norm_num) (by norm_num) _ (by norm_num)
    have e6 : round2 ((1.4 : ℚ) * 1.3) = 1.82 :=
      round2_eq _ 182 (by norm_num) (by norm_num) (by norm_num) _ (by norm_num)
    have e7 : round2 ((1.6 : ℚ) * 1.3) = 2.08 :=
      round2_eq _ 208 (by norm_num) (by norm_num) (by norm_num) _ (by norm_num)
    simp only [getRegionalHistoricalData, baseHistoricalData, regionalFactors,
      List.map_cons, List.map_nil, e1, e2, e3, e4, e5, e6, e7]
  · cases r <;> exact ⟨rfl, rfl⟩

/-- Claim C3: `calculateMetrics 2050 Global` returns temperature "1.6",
precipitation "5.3", seaLevel "26.3" and extremeEvents "32.0". -/
theorem calculateMetrics_2050_global :
    calculateMetrics 2050 Region.Global =
      { temperature := "1.6", precipitation := "5.3",
        seaLevel := "26.3", extremeEvents := "32.0" } := by
  refine ProjectedMetrics.ext ?_ ?_ ?_ ?_
  · exact toFixed1_eq _ 16 (by norm_num [regionalFactors]) (by norm_num [regionalFactors]) (by norm_num [regionalFactors]) _ (by decide)
  · exact toFixed1_eq _ 53 (by norm_num [regionalFactors]) (by norm_num [regionalFactors]) (by norm_num [regionalFactors]) _ (by decide)
  · exact toFixed1_eq _ 263 (by norm_num [regionalFactors]) (by norm_num [regionalFactors]) (by norm_num [regionalFactors]) _ (by decide)
  · exact toFixed1_eq _ 320 (by norm_num [regionalFactors]) (by norm_num [regionalFactors]) (by norm_num [regionalFactors]) _ (by decide)

/-- Claim C4: `calculateMetrics` is total: it returns a record for every
integer year and region, and years outside [2023, 2050] extrapolate
linearly with no clamping, so an out-of-range year yields a result
different from the nearest boundary year's result (shown at 2100 vs 2050
and at 1900 vs 2023, for every region). -/
theorem calculateMetrics_total_no_clamp :
    (∀ (year : ℤ) (r : Region), ∃ m : ProjectedMetrics, calculateMetrics year r = m)
    ∧ (∀ r : Region, calculateMetrics 2100 r ≠ calculateMetrics 2050 r)
    ∧ (∀ r : Region, calculateMetrics 1900 r ≠ calculateMetrics 2023 r) := by
  refine ⟨fun year r => ⟨calculateMetrics year r, rfl⟩, fun r => ?_, fun r => ?_⟩
  · cases r
    · exact ne_of_temperature_ne
        (toFixed1_eq _ 25 (by norm_num [regionalFactors]) (by norm_num [regionalFactors]) (by norm_num [regionalFactors]) "2.5" (by decide))
        (toFixed1_eq _ 16 (by norm_num [regionalFactors]) (by norm_num [regionalFactors]) (by norm_num [regionalFactors]) "1.6" (by decide))
        (by decide)
    · exact ne_of_temperature_ne
        (toFixed1_eq _ 30 (by norm_num [regionalFactors]) (by norm_num [regionalFactors]) (by norm_num [regionalFactors]) "3.0" (by decide))
        (toFixed1_eq _ 19 (by norm_num [regionalFactors]) (by norm_num [regionalFactors]) (by norm_num [regionalFactors]) "1.9" (by decide))
        (by decide)
    · exact ne_of_temperature_ne
        (toFixed1_eq _ 28 (by norm_num [regionalFactors]) (by norm_num [regionalFactors]) (by norm_num [regionalFactors]) "2.8" (by decide))
        (toFixed1_eq _ 18 (by norm_num [regionalFactors]) (by norm_num [regionalFactors]) (by norm_num [regionalFactors]) "1.8" (by decide))
        (by decide)
    · exact ne_of_temperature_ne
        (toFixed1_eq _ 33 (by norm_num [regionalFactors]) (by norm_num [regionalFactors]) (by norm_num [regionalFactors]) "3.3" (by decide))
        (toFixed1_eq _ 21 (by norm_num [regionalFactors]) (by norm_num [regionalFactors]) (by norm_num [regionalFactors]) "2.1" (by decide))
        (by decide)
    · exact ne_of_temperature_ne
        (toFixed1_eq _ 35 (by norm_num [regionalFactors]) (by norm_num [regionalFactors]) (by norm_num [regionalFactors]) "3.5" (by decide))
        (toFixed1_eq _ 22 (by norm_num [regionalFactors]) (by norm_num [regionalFactors]) (by norm_num [regionalFactors]) "2.2" (by decide))
        (by decide)
    · exact ne_of_temperature_ne
        (toFixed1_eq _ 28 (by norm_num [regionalFactors]) (by norm_num [regionalFactors]) (by norm_num [regionalFactors]) "2.8" (by decide))
        (toFixed1_eq _ 18 (by norm_num [regionalFactors]) (by norm_num [regionalFactors]) (by norm_num [regionalFactors]) "1.8" (by decide))
        (by decide)
    · exact ne_of_temperature_ne
        (toFixed1_eq _ 30 (by norm_num [regionalFactors]) (by norm_num [regionalFactors]) (by norm_num [regionalFactors]) "3.0" (by decide))
        (toFixed1_eq _ 19 (by norm_num [regionalFactors]) (by norm_num [regionalFactors]) (by norm_num [regionalFactors]) "1.9" (by decide))
        (by decide)
  · cases r
    · exact ne_of_temperature_ne
        (toFixed1_eq_neg _ 12 (by norm_num [regionalFactors]) (by norm_num [regionalFactors]) (by norm_num [regionalFactors]) "-1.2" (by decide))
        (toFixed1_eq _ 11 (by norm_num [regionalFactors]) (by norm_num [regionalFactors]) (by norm_num [regionalFactors]) "1.1" (by decide))
        (by decide)
    · exact ne_of_temperature_ne
        (toFixed1_eq_neg _ 14 (by norm_num [regionalFactors]) (by norm_num [regionalFactors]) (by norm_num [regionalFactors]) "-1.4" (by decide))
        (toFixed1_eq _ 13 (by norm_num [regionalFactors]) (by norm_num [regionalFactors]) (by norm_num [regionalFactors]) "1.3" (by decide))
        (by decide)
    · exact ne_of_temperature_ne
        (toFixed1_eq_neg _ 13 (by norm_num [regionalFactors]) (by norm_num [regionalFactors]) (by norm_num [regionalFactors]) "-1.3" (by decide))
        (toFixed1_eq _ 12 (by norm_num [regionalFactors]) (by norm_num [regionalFactors]) (by norm_num [regionalFactors]) "1.2" (by decide))
        (by decide)
    · exact ne_of_temperature_ne
        (toFixed1_eq_neg _ 15 (by norm_num [regionalFactors]) (by norm_num [regionalFactors]) (by norm_num [regionalFactors]) "-1.5" (by decide))
        (toFixed1_eq _ 14 (by norm_num [regionalFactors]) (by norm_num [regionalFactors]) (by norm_num [regionalFactors]) "1.4" (by decide))
        (by decide)
    · exact ne_of_temperature_ne
        (toFixed1_eq_neg _ 16 (by norm_num [regionalFactors]) (by norm_num [regionalFactors]) (by norm_num [regionalFactors]) "-1.6" (by decide))
        (toFixed1_eq _ 15 (by norm_num [regionalFactors]) (by norm_num [regionalFactors]) (by norm_num [regionalFactors]) "1.5" (by decide))
        (by decide)
    · exact ne_of_temperature_ne
        (toFixed1_eq_neg _ 13 (by norm_num [regionalFactors]) (by norm_num [regionalFactors]) (by norm_num [regionalFactors]) "-1.3" (by decide))
        (toFixed1_eq _ 12 (by norm_num [regionalFactors]) (by norm_num [regionalFactors]) (by norm_num [regionalFactors]) "1.2" (by decide))
        (by decide)
    · exact ne_of_temperature_ne
        (toFixed1_eq_neg _ 14 (by norm_num [regionalFactors]) (by norm_num [regionalFactors]) (by norm_num [regionalFactors]) "-1.4" (by decide))
        (toFixed1_eq _ 13 (by norm_num [regionalFactors]) (by norm_num [regionalFactors]) (by norm_num [regionalFactors]) "1.3" (by decide))
        (by decide)

/-- Claim C5: for every Region and years `2023 ≤ y1 ≤ y2 ≤ 2050`, the
numeric value denoted by the temperature string of `calculateMetrics` is
non-decreasing in the year (the last two conjuncts tie `temperatureValue`
to the very string `calculateMetrics` returns). -/
theorem calculateMetrics_temperature_monotone (r : Region) (y1 y2 : ℤ)
    (h1 : 2023 ≤ y1) (h12 : y1 ≤ y2) (h2 : y2 ≤ 2050) :
    temperatureValue y1 r ≤ temperatureValue y2 r
    ∧ (calculateMetrics y1 r).temperature = toFixed1 (tempProjection y1 r)
    ∧ (calculateMetrics y2 r).temperature = toFixed1 (tempProjection y2 r) := by
  refine ⟨?_, rfl, rfl⟩
  have hy1 : 2023 ≤ y1 := h1
  have hy2 : y2 ≤ 2050 := h2
  unfold temperatureValue
  have hmono := jsRound_mono 1 (tempProjection_mono r h12)
  have hcast : ((jsRound 1 (tempProjection y1 r) : ℤ) : ℚ)
      ≤ ((jsRound 1 (tempProjection y2 r) : ℤ) : ℚ) := by exact_mod_cast hmono
  linarith

/-- Witness for claim C5: instantiated at Asia with years 2030 and 2045. -/
theorem calculateMetrics_temperature_monotone_witness :
    (2023 : ℤ) ≤ 2030 ∧ (2030 : ℤ) ≤ 2045 ∧ (2045 : ℤ) ≤ 2050
    ∧ (temperatureValue 2030 Region.Asia ≤ temperatureValue 2045 Region.Asia
      ∧ (calculateMetrics 2030 Region.Asia).temperature = toFixed1 (tempProjection 2030 Region.Asia)
      ∧ (calculateMetrics 2045 Region.Asia).temperature = toFixed1 (tempProjection 2045 Region.Asia)) :=
  ⟨by decide, by decide, by decide,
    calculateMetrics_temperature_monotone Region.Asia 2030 2045 (by decide) (by decide) (by decide)⟩

/-- Claim C6: at the 2023 baseline the year-diff is zero, so the
temperature is `1.1` times the region's temperature factor (formatted to
one decimal digit) and the three other metrics are the string "0.0". -/
theorem calculateMetrics_2023_baseline :
    ∀ r : Region,
      (calculateMetrics 2023 r).temperature = toFixed1 (1.1 * (regionalFactors r).temperature)
      ∧ (calculateMetrics 2023 r).precipitation = "0.0"
      ∧ (calculateMetrics 2023 r).seaLevel = "0.0"
      ∧ (calculateMetrics 2023 r).extremeEvents = "0.0" := by
  have h0 : toFixed1 (0 : ℚ) = "0.0" :=
    toFixed1_eq 0 0 (by norm_num) (by norm_num) (by norm_num) _ (by decide)
  intro r
  cases r <;>
    exact ⟨congrArg toFixed1 (by norm_num [regionalFactors]),
      (congrArg toFixed1 (by norm_num [regionalFactors])).trans h0,
      (congrArg toFixed1 (by norm_num [regionalFactors])).trans h0,
      (congrArg toFixed1 (by norm_num [regionalFactors])).trans h0⟩

/-- Claim C7: the Global temperature factor is 1, so the historical
transform is the identity on the base data. -/
theorem getRegionalHistoricalData_global_id :
    getRegionalHistoricalData Region.Global = baseHistoricalData := by
  have e1 : round2 ((-0.2 : ℚ) * 1) = -0.2 :=
    round2_eq_neg _ 20 (by norm_num) (by norm_num) (by norm_num) _ (by norm_num)
  have e2 : round2 ((0 : ℚ) * 1) = 0 :=
    round2_eq _ 0 (by norm_num) (by norm_num) (by norm_num) _ (by norm_num)
  have e3 : round2 ((0.5 : ℚ) * 1) = 0.5 :=
    round2_eq _ 50 (by norm_num) (by norm_num) (by norm_num) _ (by norm_num)
  have e4 : round2 ((1.1 : ℚ) * 1) = 1.1 :=
    round2_eq _ 110 (by norm_num) (by norm_num) (by norm_num) _ (by norm_num)
  have e5 : round2 ((1.3 : ℚ) * 1) = 1.3 :=
    round2_eq _ 130 (by norm_num) (by norm_num) (by norm_num) _ (by norm_num)
  have e6 : round2 ((1.4 : ℚ) * 1) = 1.4 :=
    round2_eq _ 140 (by norm_num) (by norm_num) (by norm_num) _ (by norm_num)
  have e7 : round2 ((1.6 : ℚ) * 1) = 1.6 :=
    round2_eq _ 160 (by norm_num) (by norm_num) (by norm_num) _ (by norm_num)
  simp only [getRegionalHistoricalData, baseHistoricalData, regionalFactors,
    List.map_cons, List.map_nil, e1, e2, e3, e4, e5, e6, e7]

/-- Claim C8: the factor table's keys are exactly the 7 enumerated
regions, each appearing exactly once, lookup succeeds for every region
(the lookup function is total), and all four factors of every entry are
positive. -/
theorem regionalFactors_table_invariants :
    regionalFactorsList.map Prod.fst = regions
    ∧ (∀ r : Region, (regionalFactorsList.map Prod.fst).count r = 1)
    ∧ regions.length = 7
    ∧ (∀ r : Region, regionalFactorsList.lookup r = some (regionalFactors r))
    ∧ (∀ r : Region, 0 < (regionalFactors r).temperature
        ∧ 0 < (regionalFactors r).precipitation
        ∧ 0 < (regionalFactors r).seaLevel
        ∧ 0 < (regionalFactors r).extremeEvents) := by
  refine ⟨rfl, fun r => ?_, rfl, fun r => ?_, fun r => ?_⟩
  · cases r <;> decide
  · cases r <;> rfl
  · cases r <;> norm_num [regionalFactors]

/-- Claim C9: the CO2 series handed to the chart is the same 7-point
constant for every dashboard state: region selection cannot influence it. -/
theorem co2Data_region_independent :
    (∀ s1 s2 : DashboardState, chartCO2Data s1 = chartCO2Data s2)
    ∧ ∀ s : DashboardState, chartCO2Data s = co2Data ∧ (chartCO2Data s).length = 7 :=
  ⟨fun _ _ => rfl, fun _ => ⟨rfl, rfl⟩⟩

/-- Claim C10: for every Region, the temperatures of the transformed
historical sequence are non-decreasing in sequence order. -/
theorem getRegionalHistoricalData_monotone :
    ∀ r : Region, List.Chain' (fun a b => a ≤ b)
      ((getRegionalHistoricalData r).map (fun d => d.temperature)) := by
  intro r
  have hf := (regionalFactors_temperature_pos r).le
  simp only [getRegionalHistoricalData, baseHistoricalData, List.map_cons, List.map_nil,
    List.chain'_cons, List.chain'_singleton, and_true]
  refine ⟨?_, ?_, ?_, ?_, ?_, ?_⟩ <;>
    exact round2_mono (mul_le_mul_of_nonneg_right (by norm_num) hf)

end Climate
